import Mathlib

/-!
Verification of the sysrepo-python cffi binding layer against its
natural-language specification.

The repository consists of two files:
* `src/cffi/cdefs.h` — the cffi declarations (enums, structs, function
  signatures) of the bound native library interface;
* `src/cffi/source.c` — a compile-time version guard.

The declarations and the guard are embedded below directly from the source.
The behavioural components the specification describes (value codec, session
state machine, subscription dispatch, commit pipeline) have no implementation
under `src/`; those definitions are modelled from the specification's words
and are marked `Modelled from the spec:` in their doc comments.
-/

/-! ## Error codes: `sr_error_t` (src/cffi/cdefs.h lines 6–24) -/

/-- The declared error enum `sr_error_t` from `src/cffi/cdefs.h`.
Constructors appear in the order of the C declaration. -/
inductive SrError where
  | SR_ERR_OK
  | SR_ERR_INVAL_ARG
  | SR_ERR_LY
  | SR_ERR_SYS
  | SR_ERR_NO_MEMORY
  | SR_ERR_NOT_FOUND
  | SR_ERR_EXISTS
  | SR_ERR_INTERNAL
  | SR_ERR_UNSUPPORTED
  | SR_ERR_VALIDATION_FAILED
  | SR_ERR_OPERATION_FAILED
  | SR_ERR_UNAUTHORIZED
  | SR_ERR_LOCKED
  | SR_ERR_TIME_OUT
  | SR_ERR_CALLBACK_FAILED
  | SR_ERR_CALLBACK_SHELVE
deriving DecidableEq, Fintype, Repr

/-- The error taxonomy enumerated by the specification (§7): the twelve
members the spec says every failing public operation reports. -/
inductive SpecErrorKind where
  | InvalidArg
  | NotFound
  | Exists
  | Unsupported
  | ValidationFailed
  | OperationFailed
  | Unauthorized
  | Locked
  | TimeOut
  | CallbackFailed
  | CallbackShelved
  | Internal
deriving DecidableEq, Fintype, Repr

/-- The natural name-for-name correspondence between the declared error codes
of `sr_error_t` and the spec's taxonomy members; `none` for codes the
taxonomy does not cover (and for the success code `SR_ERR_OK`). -/
def taxonomyOf : SrError → Option SpecErrorKind
  | .SR_ERR_OK => none
  | .SR_ERR_INVAL_ARG => some .InvalidArg
  | .SR_ERR_LY => none
  | .SR_ERR_SYS => none
  | .SR_ERR_NO_MEMORY => none
  | .SR_ERR_NOT_FOUND => some .NotFound
  | .SR_ERR_EXISTS => some .Exists
  | .SR_ERR_INTERNAL => some .Internal
  | .SR_ERR_UNSUPPORTED => some .Unsupported
  | .SR_ERR_VALIDATION_FAILED => some .ValidationFailed
  | .SR_ERR_OPERATION_FAILED => some .OperationFailed
  | .SR_ERR_UNAUTHORIZED => some .Unauthorized
  | .SR_ERR_LOCKED => some .Locked
  | .SR_ERR_TIME_OUT => some .TimeOut
  | .SR_ERR_CALLBACK_FAILED => some .CallbackFailed
  | .SR_ERR_CALLBACK_SHELVE => some .CallbackShelved

/-! ## Compile-time version guard (src/cffi/source.c lines 9–14) -/

/-- Outcome of the preprocessor in `src/cffi/source.c`: either compilation
proceeds or an `#error` directive aborts it with a message. -/
inductive CompileResult where
  | ok
  | error (msg : String)
deriving DecidableEq, Repr

/-- The version guard of `src/cffi/source.c`: first
`#if (SR_VERSION_MAJOR != 7)` aborts, then `#if (SR_VERSION_MINOR < 10)`
aborts, otherwise compilation proceeds. -/
def versionGuard (major minor : Nat) : CompileResult :=
  if major ≠ 7 then
    .error "This version of sysrepo bindings only works with libsysrepo.so.7"
  else if minor < 10 then
    .error "Need at least libsysrepo.so.7.10"
  else
    .ok

/-! ## Value types: `sr_val_type_t`, `sr_val_data_u`, `sr_val_t`
(src/cffi/cdefs.h lines 107–159) -/

/-- The declared value type tag enum `sr_val_type_t` from `src/cffi/cdefs.h`,
constructors in declaration order. -/
inductive SrValType where
  | SR_UNKNOWN_T
  | SR_LIST_T
  | SR_CONTAINER_T
  | SR_CONTAINER_PRESENCE_T
  | SR_LEAF_EMPTY_T
  | SR_BINARY_T
  | SR_BITS_T
  | SR_BOOL_T
  | SR_DECIMAL64_T
  | SR_ENUM_T
  | SR_IDENTITYREF_T
  | SR_INSTANCEID_T
  | SR_INT8_T
  | SR_INT16_T
  | SR_INT32_T
  | SR_INT64_T
  | SR_STRING_T
  | SR_UINT8_T
  | SR_UINT16_T
  | SR_UINT32_T
  | SR_UINT64_T
  | SR_ANYXML_T
  | SR_ANYDATA_T
deriving DecidableEq, Fintype, Repr

/-- The payload union `sr_val_data_u` from `src/cffi/cdefs.h`: one member per
union field, carrying the field's C type (`char *` as `String`, `int`/`intN_t`
as `Int`, `uintN_t` as `Nat`, `double` as an exact rational value). -/
inductive SrValData where
  | binary_val (s : String)
  | bits_val (s : String)
  | bool_val (z : Int)
  | decimal64_val (q : Rat)
  | enum_val (s : String)
  | identityref_val (s : String)
  | instanceid_val (s : String)
  | int8_val (z : Int)
  | int16_val (z : Int)
  | int32_val (z : Int)
  | int64_val (z : Int)
  | string_val (s : String)
  | uint8_val (n : Nat)
  | uint16_val (n : Nat)
  | uint32_val (n : Nat)
  | uint64_val (n : Nat)
  | anyxml_val (s : String)
  | anydata_val (s : String)
deriving DecidableEq, Repr

/-- The value record `sr_val_t` from `src/cffi/cdefs.h`: an xpath, a type tag
and the union payload (absent for tags without a union member, such as
containers, lists and empty leaves). -/
structure SrVal where
  xpath : String
  type : SrValType
  data : Option SrValData
deriving DecidableEq, Repr

/-! ## Machine-integer storage widths

The integer members of `sr_val_data_u` are declared at fixed widths
(`int8_t` … `int64_t`, `uint8_t` … `uint64_t`).  Storing into a `w`-bit field
truncates: unsigned storage reduces modulo `2 ^ w`, signed storage reduces
into the two's-complement window `[-2 ^ (w - 1), 2 ^ (w - 1))`. -/

/-- Value held by a `w`-bit unsigned C field after storing `n`. -/
def wrapU (w : Nat) (n : Nat) : Nat := n % 2 ^ w

/-- Value held by a `w`-bit two's-complement signed C field after storing
`z`. -/
def wrapS (w : Nat) (z : Int) : Int :=
  (z + 2 ^ (w - 1)) % 2 ^ w - 2 ^ (w - 1)

/-- The signed values representable in a `w`-bit two's-complement field. -/
def SIntRange (w : Nat) (z : Int) : Prop :=
  -(2 ^ (w - 1)) ≤ z ∧ z < 2 ^ (w - 1)

/-- The unsigned values representable in a `w`-bit field. -/
def UIntRange (w : Nat) (n : Nat) : Prop :=
  n < 2 ^ w

instance (w : Nat) (z : Int) : Decidable (SIntRange w z) := by
  unfold SIntRange; infer_instance

instance (w : Nat) (n : Nat) : Decidable (UIntRange w n) := by
  unfold UIntRange; infer_instance

/-- Values of the C type `int8_t`. -/
def CInt8 := { z : Int // SIntRange 8 z }
/-- Values of the C type `int16_t`. -/
def CInt16 := { z : Int // SIntRange 16 z }
/-- Values of the C type `int32_t`. -/
def CInt32 := { z : Int // SIntRange 32 z }
/-- Values of the C type `int64_t`. -/
def CInt64 := { z : Int // SIntRange 64 z }
/-- Values of the C type `uint8_t`. -/
def CUInt8 := { n : Nat // UIntRange 8 n }
/-- Values of the C type `uint16_t`. -/
def CUInt16 := { n : Nat // UIntRange 16 n }
/-- Values of the C type `uint32_t`. -/
def CUInt32 := { n : Nat // UIntRange 32 n }
/-- Values of the C type `uint64_t`. -/
def CUInt64 := { n : Nat // UIntRange 64 n }

instance : DecidableEq CInt8 := Subtype.instDecidableEq
instance : DecidableEq CInt16 := Subtype.instDecidableEq
instance : DecidableEq CInt32 := Subtype.instDecidableEq
instance : DecidableEq CInt64 := Subtype.instDecidableEq
instance : DecidableEq CUInt8 := Subtype.instDecidableEq
instance : DecidableEq CUInt16 := Subtype.instDecidableEq
instance : DecidableEq CUInt32 := Subtype.instDecidableEq
instance : DecidableEq CUInt64 := Subtype.instDecidableEq

/-! ## Value Codec (spec §4.1)

The codec body is not part of `src/` (the repository only declares the wire
types `sr_val_type_t` / `sr_val_data_u` / `sr_val_t` above); `encode` and
`decode` below are modelled from the specification.  The wire representation
is a type tag plus the union payload, exactly as in `sr_val_t`. -/

/-- The in-memory tagged value of the specification (§3 `TypedValue`,
restricted to the leaf kinds that `sr_val_data_u` can carry plus the
payload-less empty leaf).  The integer kinds carry values of the exact
declared C width and signedness. -/
inductive TypedValue where
  | leafEmpty
  | binary (s : String)
  | bits (s : String)
  | bool (b : Bool)
  | decimal64 (q : Rat)
  | enum (s : String)
  | identityref (s : String)
  | instanceid (s : String)
  | int8 (v : CInt8)
  | int16 (v : CInt16)
  | int32 (v : CInt32)
  | int64 (v : CInt64)
  | string (s : String)
  | uint8 (v : CUInt8)
  | uint16 (v : CUInt16)
  | uint32 (v : CUInt32)
  | uint64 (v : CUInt64)
  | anyxml (s : String)
  | anydata (s : String)
deriving DecidableEq

/-- Modelled from the spec: §4.1 `encode(value) -> wire-representation`.
Each kind is stored under its `sr_val_type_t` tag into the matching
`sr_val_data_u` member; integer payloads pass through the declared-width
field (`wrapS` / `wrapU`), booleans through the C `int bool_val` field. -/
def encode : TypedValue → SrValType × Option SrValData
  | .leafEmpty => (.SR_LEAF_EMPTY_T, none)
  | .binary s => (.SR_BINARY_T, some (.binary_val s))
  | .bits s => (.SR_BITS_T, some (.bits_val s))
  | .bool b => (.SR_BOOL_T, some (.bool_val (if b then 1 else 0)))
  | .decimal64 q => (.SR_DECIMAL64_T, some (.decimal64_val q))
  | .enum s => (.SR_ENUM_T, some (.enum_val s))
  | .identityref s => (.SR_IDENTITYREF_T, some (.identityref_val s))
  | .instanceid s => (.SR_INSTANCEID_T, some (.instanceid_val s))
  | .int8 v => (.SR_INT8_T, some (.int8_val (wrapS 8 v.val)))
  | .int16 v => (.SR_INT16_T, some (.int16_val (wrapS 16 v.val)))
  | .int32 v => (.SR_INT32_T, some (.int32_val (wrapS 32 v.val)))
  | .int64 v => (.SR_INT64_T, some (.int64_val (wrapS 64 v.val)))
  | .string s => (.SR_STRING_T, some (.string_val s))
  | .uint8 v => (.SR_UINT8_T, some (.uint8_val (wrapU 8 v.val)))
  | .uint16 v => (.SR_UINT16_T, some (.uint16_val (wrapU 16 v.val)))
  | .uint32 v => (.SR_UINT32_T, some (.uint32_val (wrapU 32 v.val)))
  | .uint64 v => (.SR_UINT64_T, some (.uint64_val (wrapU 64 v.val)))
  | .anyxml s => (.SR_ANYXML_T, some (.anyxml_val s))
  | .anydata s => (.SR_ANYDATA_T, some (.anydata_val s))

/-- Modelled from the spec: §4.1 `decode(wire-representation) -> TypedValue`.
A tag outside the supported kind set fails with the unsupported-type error;
a payload inconsistent with the tag fails with `SR_ERR_INVAL_ARG`. -/
def decode : SrValType × Option SrValData → Except SrError TypedValue
  | (.SR_LEAF_EMPTY_T, none) => .ok .leafEmpty
  | (.SR_BINARY_T, some (.binary_val s)) => .ok (.binary s)
  | (.SR_BITS_T, some (.bits_val s)) => .ok (.bits s)
  | (.SR_BOOL_T, some (.bool_val z)) =>
    if z = 0 then .ok (.bool false) else .ok (.bool true)
  | (.SR_DECIMAL64_T, some (.decimal64_val q)) => .ok (.decimal64 q)
  | (.SR_ENUM_T, some (.enum_val s)) => .ok (.enum s)
  | (.SR_IDENTITYREF_T, some (.identityref_val s)) => .ok (.identityref s)
  | (.SR_INSTANCEID_T, some (.instanceid_val s)) => .ok (.instanceid s)
  | (.SR_INT8_T, some (.int8_val z)) =>
    if h : SIntRange 8 z then .ok (.int8 ⟨z, h⟩) else .error .SR_ERR_INVAL_ARG
  | (.SR_INT16_T, some (.int16_val z)) =>
    if h : SIntRange 16 z then .ok (.int16 ⟨z, h⟩) else .error .SR_ERR_INVAL_ARG
  | (.SR_INT32_T, some (.int32_val z)) =>
    if h : SIntRange 32 z then .ok (.int32 ⟨z, h⟩) else .error .SR_ERR_INVAL_ARG
  | (.SR_INT64_T, some (.int64_val z)) =>
    if h : SIntRange 64 z then .ok (.int64 ⟨z, h⟩) else .error .SR_ERR_INVAL_ARG
  | (.SR_STRING_T, some (.string_val s)) => .ok (.string s)
  | (.SR_UINT8_T, some (.uint8_val n)) =>
    if h : UIntRange 8 n then .ok (.uint8 ⟨n, h⟩) else .error .SR_ERR_INVAL_ARG
  | (.SR_UINT16_T, some (.uint16_val n)) =>
    if h : UIntRange 16 n then .ok (.uint16 ⟨n, h⟩) else .error .SR_ERR_INVAL_ARG
  | (.SR_UINT32_T, some (.uint32_val n)) =>
    if h : UIntRange 32 n then .ok (.uint32 ⟨n, h⟩) else .error .SR_ERR_INVAL_ARG
  | (.SR_UINT64_T, some (.uint64_val n)) =>
    if h : UIntRange 64 n then .ok (.uint64 ⟨n, h⟩) else .error .SR_ERR_INVAL_ARG
  | (.SR_ANYXML_T, some (.anyxml_val s)) => .ok (.anyxml s)
  | (.SR_ANYDATA_T, some (.anydata_val s)) => .ok (.anydata s)
  | (.SR_UNKNOWN_T, _) => .error .SR_ERR_UNSUPPORTED
  | (.SR_LIST_T, _) => .error .SR_ERR_UNSUPPORTED
  | (.SR_CONTAINER_T, _) => .error .SR_ERR_UNSUPPORTED
  | (.SR_CONTAINER_PRESENCE_T, _) => .error .SR_ERR_UNSUPPORTED
  | (_, _) => .error .SR_ERR_INVAL_ARG

/-! ## YANG decimal64 data

A YANG decimal64 datum is a scaled 64-bit integer: `digits × 10 ^ (-fracDigits)`
with a declared count of fractional digits.  The `sr_val_data_u` union stores
decimal64 in the single field `double decimal64_val`, i.e. it keeps only a
numeric value.  `decimal64Stored` maps the datum to that stored numeric value
(idealised as exact — a real `double` loses strictly more). -/

/-- A YANG decimal64 datum: integral digits plus the fractional digit
count. -/
structure Decimal64 where
  digits : Int
  fracDigits : Nat
deriving DecidableEq, Repr

/-- The numeric value of a decimal64 datum. -/
def Decimal64.toRat (d : Decimal64) : Rat := (d.digits : Rat) / 10 ^ d.fracDigits

/-- What the `double decimal64_val` member of `sr_val_data_u` retains of a
decimal64 datum: its numeric value only. -/
def decimal64Stored (d : Decimal64) : Rat := d.toRat

/-- The `TypedValue` the codec carries for a decimal64 datum: the stored
numeric value under the decimal64 tag. -/
def encodeDecimal64 (d : Decimal64) : TypedValue := .decimal64 (decimal64Stored d)

/-! ## get_items option flags: `sr_get_oper_flag_t`
(src/cffi/cdefs.h lines 167–174)

The cffi declaration lists the four flag constants with `...`, leaving their
numeric values to be resolved against the native header at build time; the
bit assignment below is modelled from the specification. -/

/-- The four operational-get option flags declared in `sr_get_oper_flag_e`:
exclude state data, exclude config data, exclude subscriber-sourced data,
exclude stored/cached data. -/
inductive SrGetOperFlag where
  | SR_OPER_NO_STATE
  | SR_OPER_NO_CONFIG
  | SR_OPER_NO_SUBS
  | SR_OPER_NO_STORED
deriving DecidableEq, Fintype, Repr

/-- Modelled from the spec: each `get_items` option is "an independent filter
bit, combinable" — the bit position assigned to each flag. -/
def operFlagBit : SrGetOperFlag → Nat
  | .SR_OPER_NO_STATE => 0
  | .SR_OPER_NO_CONFIG => 1
  | .SR_OPER_NO_SUBS => 2
  | .SR_OPER_NO_STORED => 3

/-- Modelled from the spec: combining a set of `get_items` option flags into
one `sr_get_oper_options_t` word by summing the distinct flag bits. -/
def operOptions (s : Finset SrGetOperFlag) : Nat :=
  (if SrGetOperFlag.SR_OPER_NO_STATE ∈ s then 1 else 0) +
  (if SrGetOperFlag.SR_OPER_NO_CONFIG ∈ s then 2 else 0) +
  (if SrGetOperFlag.SR_OPER_NO_SUBS ∈ s then 4 else 0) +
  (if SrGetOperFlag.SR_OPER_NO_STORED ∈ s then 8 else 0)

/-! ## Session state machine (spec §4.2)

Sessions, pending edit transactions and the operations on them have no body
under `src/` (the repository declares `sr_session_switch_ds`,
`sr_set_item_str`, `sr_delete_item`, `sr_apply_changes`,
`sr_discard_changes` only); the definitions below are modelled from the
specification's state machine. -/

/-- The datastore kinds declared in `sr_datastore_t`
(src/cffi/cdefs.h lines 52–58). -/
inductive SrDatastore where
  | SR_DS_STARTUP
  | SR_DS_RUNNING
  | SR_DS_CANDIDATE
  | SR_DS_OPERATIONAL
deriving DecidableEq, Fintype, Repr

/-- One pending operation of an EditTransaction: a set or a delete at an
xpath (spec §3 `EditTransaction`). -/
inductive EditOp where
  | set (xpath value : String)
  | del (xpath : String)
deriving DecidableEq, Repr

/-- Modelled from the spec: a Session is bound to one datastore kind and
holds the ordered sequence of pending edit operations; an empty sequence is
the `Idle` state, a non-empty one the `PendingEdit` state (spec §3, §4.2). -/
structure Session where
  ds : SrDatastore
  pending : List EditOp
deriving DecidableEq, Repr

/-- A Session is in the `Idle` state when no edit operation is pending. -/
def Session.isIdle (s : Session) : Bool := s.pending.isEmpty

/-- Modelled from the spec: `switch_datastore(session, kind)` fails with
`OperationFailed` if a pending uncommitted edit exists, otherwise rebinds the
session to the requested datastore kind (spec §4.2). -/
def switch_datastore (s : Session) (kind : SrDatastore) :
    Except SrError Session :=
  if s.pending.isEmpty then .ok { s with ds := kind }
  else .error .SR_ERR_OPERATION_FAILED

/-- Modelled from the spec: `set_item` appends a set operation to the pending
EditTransaction (spec §4.2). -/
def set_item (s : Session) (xpath value : String) : Session :=
  { s with pending := s.pending ++ [.set xpath value] }

/-- Modelled from the spec: `delete_item` appends a delete operation to the
pending EditTransaction, symmetric to `set_item` (spec §4.2). -/
def delete_item (s : Session) (xpath : String) : Session :=
  { s with pending := s.pending ++ [.del xpath] }

/-- Modelled from the spec: `discard_changes(session)` clears the pending
EditTransaction without committing and always succeeds (spec §4.2). -/
def discard_changes (s : Session) : SrError × Session :=
  (.SR_ERR_OK, { s with pending := [] })

/-! ## Subscription dispatch order (spec §4.4)

The dispatch logic behind `sr_module_change_subscribe` has no body under
`src/`; the order below is modelled from the specification: ascending
priority value, ties broken by registration order. -/

/-- Modelled from the spec: the dispatch precedence between registration
indices `i` and `j` of subscriptions whose priorities are listed (in
registration order) in `ps` — strictly lower priority value first, ties by
registration order (spec §4.4). -/
def keyLe (ps : List Nat) (i j : Nat) : Prop :=
  ps.getD i 0 < ps.getD j 0 ∨ (ps.getD i 0 = ps.getD j 0 ∧ i ≤ j)

instance (ps : List Nat) : DecidableRel (keyLe ps) := fun i j => by
  unfold keyLe; infer_instance

instance (ps : List Nat) : IsTotal Nat (keyLe ps) where
  total i j := by unfold keyLe; omega

instance (ps : List Nat) : IsTrans Nat (keyLe ps) where
  trans a b c := by unfold keyLe; omega

/-- Modelled from the spec: the order in which an event is dispatched to the
module-change subscriptions whose priorities, in registration order, are
`ps`: the registration indices sorted stably by `keyLe` (spec §4.4). -/
def dispatchOrder (ps : List Nat) : List Nat :=
  List.insertionSort (keyLe ps) (List.range ps.length)

/-! ## Two-phase commit (spec §4.2 `apply_changes`) -/

/-- Modelled from the spec: a module-change subscriber as the commit pipeline
sees it — its registered priority and the result code its callback returns
for the change event (spec §4.2, §4.4). -/
structure Subscriber where
  priority : Nat
  response : SrError
deriving DecidableEq, Repr

/-- Modelled from the spec: the outcome of broadcasting the change event of a
commit to the subscribers in dispatch order — `TimeOut` if responses were
not collected in time, `CallbackFailed` if any subscriber rejects, success
otherwise (spec §4.2). -/
def commitResult (subs : List Subscriber) (timedOut : Bool) : SrError :=
  if timedOut then .SR_ERR_TIME_OUT
  else if (dispatchOrder (subs.map Subscriber.priority)).all
      (fun i => decide ((subs.getD i ⟨0, .SR_ERR_OK⟩).response = .SR_ERR_OK))
  then .SR_ERR_OK
  else .SR_ERR_CALLBACK_FAILED

/-- Modelled from the spec: `apply_changes(session, timeout)` runs the
two-phase commit over the pending EditTransaction; an empty transaction is a
successful no-op; on success the pending edit is cleared, on any failure the
session (and its pending edit) is left untouched (spec §4.2, §7). -/
def apply_changes (s : Session) (subs : List Subscriber) (timedOut : Bool) :
    SrError × Session :=
  if s.pending.isEmpty then (.SR_ERR_OK, s)
  else
    match commitResult subs timedOut with
    | .SR_ERR_OK => (.SR_ERR_OK, { s with pending := [] })
    | e => (e, s)

/-! ## Spec-enumerated TypedValue kinds vs the declared tag set (spec §3) -/

/-- The kind set the specification's §3 data model enumerates for
`TypedValue`: container, list, leaf-empty, binary, bits, bool, decimal64,
enum, identityref, instance-id, int8/16/32/64, uint8/16/32/64, string,
anyxml, anydata. -/
inductive SpecTypedValueKind where
  | container
  | list
  | leafEmpty
  | binary
  | bits
  | bool
  | decimal64
  | enum
  | identityref
  | instanceId
  | int8
  | int16
  | int32
  | int64
  | uint8
  | uint16
  | uint32
  | uint64
  | string
  | anyxml
  | anydata
deriving DecidableEq, Fintype, Repr

/-- The name-for-name correspondence sending each spec-enumerated
`TypedValue` kind to its `sr_val_type_t` tag. -/
def specKindTag : SpecTypedValueKind → SrValType
  | .container => .SR_CONTAINER_T
  | .list => .SR_LIST_T
  | .leafEmpty => .SR_LEAF_EMPTY_T
  | .binary => .SR_BINARY_T
  | .bits => .SR_BITS_T
  | .bool => .SR_BOOL_T
  | .decimal64 => .SR_DECIMAL64_T
  | .enum => .SR_ENUM_T
  | .identityref => .SR_IDENTITYREF_T
  | .instanceId => .SR_INSTANCEID_T
  | .int8 => .SR_INT8_T
  | .int16 => .SR_INT16_T
  | .int32 => .SR_INT32_T
  | .int64 => .SR_INT64_T
  | .uint8 => .SR_UINT8_T
  | .uint16 => .SR_UINT16_T
  | .uint32 => .SR_UINT32_T
  | .uint64 => .SR_UINT64_T
  | .string => .SR_STRING_T
  | .anyxml => .SR_ANYXML_T
  | .anydata => .SR_ANYDATA_T

/-! ## Helper lemmas -/

/-- Storing an in-range signed value into its declared-width field returns it
unchanged. -/
lemma wrapS_eq_self {w : Nat} (hw : 1 ≤ w) {z : Int} (h : SIntRange w z) :
    wrapS w z = z := by
  obtain ⟨h1, h2⟩ := h
  have hw1 : w - 1 + 1 = w := Nat.succ_pred_eq_of_pos hw
  have hpow : (2 : Int) ^ w = 2 ^ (w - 1) * 2 := by
    conv_lhs => rw [← hw1]
    rw [pow_succ]
  unfold wrapS
  rw [Int.emod_eq_of_lt (by omega) (by omega)]
  omega

/-- Storing an in-range unsigned value into its declared-width field returns
it unchanged. -/
lemma wrapU_eq_self {w : Nat} {n : Nat} (h : UIntRange w n) :
    wrapU w n = n :=
  Nat.mod_eq_of_lt h

/-! ## Claim theorems -/

/-- C1: the compile-time version guard of `src/cffi/source.c` accepts the
native library version if and only if the major version equals 7 and the
minor version is at least 10; every other pair aborts compilation with an
`#error`. -/
theorem versionGuard_accepts_iff (major minor : Nat) :
    versionGuard major minor = CompileResult.ok ↔ (major = 7 ∧ 10 ≤ minor) := by
  constructor
  · intro h
    by_cases h7 : major = 7
    · by_cases h10 : minor < 10
      · simp [versionGuard, h7, h10] at h
      · exact ⟨h7, by omega⟩
    · simp [versionGuard, h7] at h
  · rintro ⟨h7, h10⟩
    subst h7
    have h10' : ¬ minor < 10 := by omega
    simp [versionGuard, h10']

/-- C1 witness: the guard accepts (7, 10) and rejects (6, 12). -/
theorem versionGuard_accepts_iff_witness :
    versionGuard 7 10 = CompileResult.ok ∧
      versionGuard 6 12 ≠ CompileResult.ok :=
  ⟨(versionGuard_accepts_iff 7 10).mpr (by decide),
   fun h => by
    have := (versionGuard_accepts_iff 6 12).mp h
    omega⟩

/-- C2 counterexample: the declared error enum `sr_error_t` contains
`SR_ERR_LY`, which is neither the success code nor any member of the spec's
twelve-element taxonomy, so the claim fails at that code. -/
theorem srError_LY_outside_taxonomy :
    ¬ (SrError.SR_ERR_LY = SrError.SR_ERR_OK ∨
        (taxonomyOf SrError.SR_ERR_LY).isSome = true) := by
  decide

/-- C2 amended: every declared error code is the success code, one of the
three codes the taxonomy does not cover (`SR_ERR_LY`, `SR_ERR_SYS`,
`SR_ERR_NO_MEMORY`), or corresponds to exactly one taxonomy member; the
correspondence is injective and reaches every taxonomy member. -/
theorem taxonomyOf_amended :
    (∀ e : SrError, e = .SR_ERR_OK ∨ e = .SR_ERR_LY ∨ e = .SR_ERR_SYS ∨
        e = .SR_ERR_NO_MEMORY ∨ (taxonomyOf e).isSome = true) ∧
    (∀ e₁ e₂ : SrError, (taxonomyOf e₁).isSome = true →
        taxonomyOf e₁ = taxonomyOf e₂ → e₁ = e₂) ∧
    (∀ k : SpecErrorKind, ∃ e : SrError, taxonomyOf e = some k) := by
  refine ⟨by decide, by decide, by decide⟩

/-- C2 amended witness: `SR_ERR_LOCKED` maps into the taxonomy, and the
injectivity conjunct applies to it. -/
theorem taxonomyOf_amended_witness :
    (taxonomyOf SrError.SR_ERR_LOCKED).isSome = true ∧
      SrError.SR_ERR_LOCKED = SrError.SR_ERR_LOCKED :=
  ⟨by decide,
   taxonomyOf_amended.2.1 SrError.SR_ERR_LOCKED SrError.SR_ERR_LOCKED
    (by decide) (by decide)⟩

/-- C3: the codec round-trip law — `encode` is total on every supported
`TypedValue`, `decode` succeeds on every encoded value, and decoding an
encoded value returns the value unchanged. -/
theorem codec_roundTrip (v : TypedValue) : decode (encode v) = Except.ok v := by
  cases v with
  | bool b => cases b <;> simp [encode, decode]
  | int8 v => simp [encode, decode, wrapS_eq_self (by norm_num) v.property,
      v.property]
  | int16 v => simp [encode, decode, wrapS_eq_self (by norm_num) v.property,
      v.property]
  | int32 v => simp [encode, decode, wrapS_eq_self (by norm_num) v.property,
      v.property]
  | int64 v => simp [encode, decode, wrapS_eq_self (by norm_num) v.property,
      v.property]
  | uint8 v => simp [encode, decode, wrapU_eq_self v.property, v.property]
  | uint16 v => simp [encode, decode, wrapU_eq_self v.property, v.property]
  | uint32 v => simp [encode, decode, wrapU_eq_self v.property, v.property]
  | uint64 v => simp [encode, decode, wrapU_eq_self v.property, v.property]
  | _ => rfl

/-- C4 counterexample: the `double decimal64_val` member of `sr_val_data_u`
keeps only the numeric value of a decimal64 datum, so the two distinct data
`15 × 10⁻¹` and `150 × 10⁻²` — which differ exactly in their fractional
digit count — are stored identically, and the codec's decimal64 value for
them coincides: the fractional digit count is not preserved. -/
theorem decimal64_fracDigits_lost :
    decimal64Stored ⟨15, 1⟩ = decimal64Stored ⟨150, 2⟩ ∧
    encodeDecimal64 ⟨15, 1⟩ = encodeDecimal64 ⟨150, 2⟩ ∧
    Decimal64.fracDigits ⟨15, 1⟩ ≠ Decimal64.fracDigits ⟨150, 2⟩ := by
  have hst : decimal64Stored ⟨15, 1⟩ = decimal64Stored ⟨150, 2⟩ := by
    norm_num [decimal64Stored, Decimal64.toRat]
  exact ⟨hst, by rw [encodeDecimal64, encodeDecimal64, hst], by decide⟩

/-- C4 amended: each integer kind is stored at its declared bit width and
signedness, and that width is exact — every value of the kind survives the
declared-width field unchanged; the decimal64 representation preserves the
numeric value of the datum (but not its fractional digit count, see the
counterexample). -/
theorem numeric_width_preserved :
    (∀ v : CInt8, wrapS 8 v.val = v.val) ∧
    (∀ v : CInt16, wrapS 16 v.val = v.val) ∧
    (∀ v : CInt32, wrapS 32 v.val = v.val) ∧
    (∀ v : CInt64, wrapS 64 v.val = v.val) ∧
    (∀ v : CUInt8, wrapU 8 v.val = v.val) ∧
    (∀ v : CUInt16, wrapU 16 v.val = v.val) ∧
    (∀ v : CUInt32, wrapU 32 v.val = v.val) ∧
    (∀ v : CUInt64, wrapU 64 v.val = v.val) ∧
    (∀ d : Decimal64, decimal64Stored d = d.toRat) :=
  ⟨fun v => wrapS_eq_self (by norm_num) v.property,
   fun v => wrapS_eq_self (by norm_num) v.property,
   fun v => wrapS_eq_self (by norm_num) v.property,
   fun v => wrapS_eq_self (by norm_num) v.property,
   fun v => wrapU_eq_self v.property,
   fun v => wrapU_eq_self v.property,
   fun v => wrapU_eq_self v.property,
   fun v => wrapU_eq_self v.property,
   fun _ => rfl⟩

/-- C5: the four `get_items` option flags are independent bits of the options
word — membership of each flag in a combined subset is exactly recoverable
from the word by testing that flag's bit, and distinct subsets always
combine to distinct option words. -/
theorem operOptions_independent_bits :
    (∀ (s : Finset SrGetOperFlag) (f : SrGetOperFlag),
        f ∈ s ↔ Nat.testBit (operOptions s) (operFlagBit f) = true) ∧
    (∀ s₁ s₂ : Finset SrGetOperFlag,
        operOptions s₁ = operOptions s₂ → s₁ = s₂) :=
  ⟨by decide, by decide⟩

/-- C5 witness: in the combination of the no-state and no-subscribers flags,
the no-subscribers bit tests true, and the injectivity conjunct applies to
that subset. -/
theorem operOptions_independent_bits_witness :
    Nat.testBit
      (operOptions
        {SrGetOperFlag.SR_OPER_NO_STATE, SrGetOperFlag.SR_OPER_NO_SUBS})
      (operFlagBit SrGetOperFlag.SR_OPER_NO_SUBS) = true ∧
    ({SrGetOperFlag.SR_OPER_NO_STATE, SrGetOperFlag.SR_OPER_NO_SUBS} :
        Finset SrGetOperFlag) =
      {SrGetOperFlag.SR_OPER_NO_STATE, SrGetOperFlag.SR_OPER_NO_SUBS} :=
  ⟨(operOptions_independent_bits.1
      {SrGetOperFlag.SR_OPER_NO_STATE, SrGetOperFlag.SR_OPER_NO_SUBS}
      SrGetOperFlag.SR_OPER_NO_SUBS).mp (by decide),
   operOptions_independent_bits.2
      {SrGetOperFlag.SR_OPER_NO_STATE, SrGetOperFlag.SR_OPER_NO_SUBS}
      {SrGetOperFlag.SR_OPER_NO_STATE, SrGetOperFlag.SR_OPER_NO_SUBS}
      (by decide)⟩

/-- C6: module-change dispatch visits every registered subscription exactly
once, in ascending order of priority value with ties broken by registration
order; in particular priorities `[10, 5, 5]` registered in that order
dispatch as index 1, then index 2, then index 0. -/
theorem dispatchOrder_priority_stable :
    (∀ ps : List Nat,
        (dispatchOrder ps).Perm (List.range ps.length) ∧
        List.Pairwise (keyLe ps) (dispatchOrder ps)) ∧
    dispatchOrder [10, 5, 5] = [1, 2, 0] :=
  ⟨fun ps =>
    ⟨List.perm_insertionSort (keyLe ps) (List.range ps.length),
     List.sorted_insertionSort (keyLe ps) (List.range ps.length)⟩,
   by decide⟩

/-- C7: `switch_datastore` fails with `OperationFailed` exactly when the
session holds a pending uncommitted edit; with no pending edit it succeeds
for every (recognized) datastore kind, rebinding the session. -/
theorem switch_datastore_pending_spec (s : Session) (kind : SrDatastore) :
    (s.pending ≠ [] →
        switch_datastore s kind = .error .SR_ERR_OPERATION_FAILED) ∧
    (s.pending = [] →
        switch_datastore s kind = .ok { s with ds := kind }) := by
  constructor
  · intro h
    have hne : s.pending.isEmpty = false := by
      cases hp : s.pending with
      | nil => exact absurd hp h
      | cons a l => rfl
    simp [switch_datastore, hne]
  · intro h
    simp [switch_datastore, h]

/-- C7 witness: switching fails with `OperationFailed` on a session with a
pending set, and succeeds on an idle session. -/
theorem switch_datastore_pending_spec_witness :
    switch_datastore ⟨.SR_DS_RUNNING, [.set "/m:x" "5"]⟩ .SR_DS_CANDIDATE =
      .error .SR_ERR_OPERATION_FAILED ∧
    switch_datastore ⟨.SR_DS_RUNNING, []⟩ .SR_DS_CANDIDATE =
      .ok ⟨.SR_DS_CANDIDATE, []⟩ :=
  ⟨(switch_datastore_pending_spec ⟨.SR_DS_RUNNING, [.set "/m:x" "5"]⟩
      .SR_DS_CANDIDATE).1 (by decide),
   (switch_datastore_pending_spec ⟨.SR_DS_RUNNING, []⟩ .SR_DS_CANDIDATE).2
      rfl⟩

/-- C8: a failed `apply_changes` — whatever the failure cause, timeout
included — returns the session exactly as it was, pending EditTransaction
intact, so the caller can retry or discard. -/
theorem apply_changes_failure_preserves_session (s : Session)
    (subs : List Subscriber) (timedOut : Bool)
    (h : (apply_changes s subs timedOut).1 ≠ .SR_ERR_OK) :
    (apply_changes s subs timedOut).2 = s := by
  by_cases he : s.pending.isEmpty
  · simp [apply_changes, he] at h
  · simp only [apply_changes, he, Bool.false_eq_true, if_false] at h ⊢
    cases hc : commitResult subs timedOut <;> simp [hc] at h ⊢

/-- C8 witness: `apply_changes` timing out on a session with one pending set
leaves the session unchanged. -/
theorem apply_changes_failure_preserves_session_witness :
    (apply_changes ⟨.SR_DS_RUNNING, [.set "/m:x" "5"]⟩ [] true).2 =
      ⟨.SR_DS_RUNNING, [.set "/m:x" "5"]⟩ :=
  apply_changes_failure_preserves_session ⟨.SR_DS_RUNNING, [.set "/m:x" "5"]⟩
    [] true (by decide)

/-- C9: `discard_changes` always succeeds, is idempotent, and is a no-op on a
session with no pending edit. -/
theorem discard_changes_spec :
    (∀ s : Session, (discard_changes s).1 = .SR_ERR_OK) ∧
    (∀ s : Session, discard_changes (discard_changes s).2 = discard_changes s) ∧
    (∀ s : Session, s.pending = [] → discard_changes s = (.SR_ERR_OK, s)) :=
  ⟨fun _ => rfl,
   fun _ => rfl,
   fun s h => by
    obtain ⟨ds, p⟩ := s
    cases h
    rfl⟩

/-- C9 witness: discarding on an idle session is a successful no-op. -/
theorem discard_changes_spec_witness :
    discard_changes ⟨.SR_DS_RUNNING, []⟩ = (.SR_ERR_OK, ⟨.SR_DS_RUNNING, []⟩) :=
  discard_changes_spec.2.2 ⟨.SR_DS_RUNNING, []⟩ rfl

/-- C10: the declared tag set `sr_val_type_t` is strictly larger than the
kind set the spec enumerates for `TypedValue`: no spec kind maps to
`SR_UNKNOWN_T` or to `SR_CONTAINER_PRESENCE_T` (which is a distinct tag from
`SR_CONTAINER_T`), the tag set has strictly larger cardinality, and there is
a well-typed `sr_val_t` whose active tag is not any spec-enumerated kind. -/
theorem valType_tagSet_larger :
    (∀ k : SpecTypedValueKind, specKindTag k ≠ .SR_UNKNOWN_T) ∧
    (∀ k : SpecTypedValueKind, specKindTag k ≠ .SR_CONTAINER_PRESENCE_T) ∧
    SrValType.SR_CONTAINER_PRESENCE_T ≠ SrValType.SR_CONTAINER_T ∧
    Fintype.card SpecTypedValueKind < Fintype.card SrValType ∧
    ∃ v : SrVal, ∀ k : SpecTypedValueKind, specKindTag k ≠ v.type :=
  ⟨by decide, by decide, by decide, by decide,
   ⟨⟨"/m:x", .SR_UNKNOWN_T, none⟩, by decide⟩⟩
